import Mathlib

/-!
# Verification of the SSH MCP server session manager

Shallow embedding of `src/ssh_mcp_server_python/main.py`.

The Python code mutates three fields of the server object
(`ssh_client`, `sftp_client`, `config`); we model them as an explicit
`SrvState` record threaded through each operation.  Handles are modelled
as natural-number identifiers.  Every effect whose outcome depends on the
outside world (the environment configuration, key parsing by the SSH
library, the transport connect, opening the SFTP sub-channel, closing
handles, the local filesystem, remote mkdir/put/get, remote command
execution, and text decoding) is an oracle field of a `World` record.
Each operation also returns the list of externally visible events it
performed, in order, so that claims about "no effect", ordering, and
at-most-one-live-session can be stated over traces.
-/

namespace SSHMCP

/-- Python exception classes that occur in the source, abstracted to the
kinds the control flow distinguishes.  `libError` stands for any
exception coming out of the underlying SSH/OS library. -/
inductive ErrKind where
  | valueError
  | fileNotFoundError
  | fileExistsError
  | exception
  | libError
deriving DecidableEq, Repr

/-- A Python exception value: its class kind and its message. -/
structure PyErr where
  kind : ErrKind
  msg : String
deriving DecidableEq, Repr

/-- `str(e)` for the exceptions of this program: the message. -/
def pyStr (e : PyErr) : String := e.msg

/-- The `SSHConfig` dataclass of `main.py`. -/
structure SSHConfig where
  host : String
  port : Nat
  username : String
  password : Option String
  private_key : Option String
  private_key_passphrase : Option String
deriving DecidableEq, Repr

/-- The optional arguments of `_connect_ssh`. -/
structure ConnectArgs where
  host : Option String
  port : Option Nat
  username : Option String
  password : Option String
  private_key : Option String
  private_key_passphrase : Option String
deriving DecidableEq, Repr

/-- Python truthiness of an optional string: present and non-empty. -/
def truthyOS : Option String → Bool
  | none => false
  | some s => s ≠ ""

/-- Python `a or b` where `a : Optional[str]` and `b : str`. -/
def orS : Option String → String → String
  | some s, b => if s = "" then b else s
  | none, b => b

/-- Python `a or b` where `a : Optional[int]` and `b : int`
(`0` is falsy). -/
def orN : Option Nat → Nat → Nat
  | some n, b => if n = 0 then b else n
  | none, b => b

/-- Python `a or b` where both sides are `Optional[str]`. -/
def orOS : Option String → Option String → Option String
  | some s, b => if s = "" then b else some s
  | none, b => b

/-- The key formats tried by `_connect_ssh`. -/
inductive KeyFormat where
  | RSA
  | Ed25519
  | ECDSA
  | DSS
deriving DecidableEq, Repr

/-- The `key_types` list of `main.py`, in source order. -/
def keyTypes : List KeyFormat := [.RSA, .Ed25519, .ECDSA, .DSS]

/-- Externally visible effects, in the order the code performs them. -/
inductive Event where
  | closeSftp (h : Nat)
  | closeSsh (h : Nat)
  | keyTried (f : KeyFormat)
  | authKey (f : KeyFormat)
  | authPassword
  | transportOpen (h : Nat)
  | sftpOpen (h : Nat)
  | mkdirAttempt (dir : String)
  | sftpPut (localPath remotePath : String)
  | sftpGet (remotePath localPath : String)
  | makedirs (dir : String)
  | execCmd (cmd : String)
deriving DecidableEq, Repr

/-- The mutable fields of `SSHMCPServer`. -/
structure SrvState where
  ssh_client : Option Nat
  sftp_client : Option Nat
  config : Option SSHConfig
deriving DecidableEq, Repr

/-- The server state with no handles and no recorded config
(the `Disconnected` state of the spec). -/
def disconnectedSt : SrvState := ⟨none, none, none⟩

/-- Oracle for every outcome decided outside the program:
the environment configuration, which key formats parse, and whether each
library call succeeds (`none` means success where the field is an
`Option PyErr`). -/
structure World where
  envConfig : SSHConfig
  keyParse : KeyFormat → Bool
  connectErr : Option PyErr
  sftpOpenErr : Option PyErr
  closeSftpErr : Option PyErr
  closeSshErr : Option PyErr
  localExists : String → Bool
  mkdirErr : String → Option PyErr
  putErr : Option PyErr
  getErr : Option PyErr
  makedirsErr : Option PyErr
  execResult : Except PyErr (List Nat × List Nat × Nat)
  sysExec : String → Except PyErr (List Nat)
  decode : List Nat → String

/-- Result of one operation: the returned value or raised exception, the
server state after the call, and the trace of performed effects. -/
abbrev OpResult := Except PyErr String × SrvState × List Event

/-- Second half of `_disconnect_ssh`: close the transport if open, then
clear `config` and return the success string.  A close error propagates
wrapped as `Disconnect failed: ...` and leaves the remaining state
untouched, exactly as the `except` clause of the source does. -/
def disconnectSshPart (st : SrvState) (w : World) (evs : List Event) : OpResult :=
  match st.ssh_client with
  | some h =>
    match w.closeSshErr with
    | some e => (.error ⟨.exception, "Disconnect failed: " ++ pyStr e⟩, st, evs ++ [.closeSsh h])
    | none =>
      (.ok "Successfully disconnected from SSH",
       { st with ssh_client := none, config := none }, evs ++ [.closeSsh h])
  | none => (.ok "Successfully disconnected from SSH", { st with config := none }, evs)

/-- `_disconnect_ssh`: close the SFTP sub-channel if open, then the
transport if open, clear state, return the success string.  An exception
during a close is wrapped (`Disconnect failed: ...`) and re-raised; the
fields not yet cleared at that point keep their values. -/
def disconnect_ssh (st : SrvState) (w : World) : OpResult :=
  match st.sftp_client with
  | some h =>
    match w.closeSftpErr with
    | some e => (.error ⟨.exception, "Disconnect failed: " ++ pyStr e⟩, st, [.closeSftp h])
    | none => disconnectSshPart { st with sftp_client := none } w [.closeSftp h]
  | none => disconnectSshPart st w []

/-- The argument/environment merge of `_connect_ssh` (Python `or` on
each field, so an empty string and `0` fall back to the default). -/
def mergeConfig (a : ConnectArgs) (env : SSHConfig) : SSHConfig :=
  { host := orS a.host env.host
    port := orN a.port env.port
    username := orS a.username env.username
    password := orOS a.password env.password
    private_key := orOS a.private_key env.private_key
    private_key_passphrase := orOS a.private_key_passphrase env.private_key_passphrase }

def hostRequiredMsg : String :=
  "Host is required. Provide it as parameter or set UBUNTU_SSH_HOST environment variable."

def userRequiredMsg : String :=
  "Username is required. Provide it as parameter or set UBUNTU_SSH_USERNAME environment variable."

def credRequiredMsg : String :=
  "Either password or private key is required. Set UBUNTU_SSH_PASSWORD or UBUNTU_SSH_PRIVATE_KEY_PATH environment variable."

def keyLoadFailMsg : String :=
  "Failed to load private key. Unsupported format or incorrect passphrase."

/-- The three required-field checks of `_connect_ssh` (lines 174-179),
in source order; each failing check raises a `ValueError`. -/
def validateConfig (c : SSHConfig) : Except PyErr Unit :=
  if c.host = "" then .error ⟨.valueError, hostRequiredMsg⟩
  else if c.username = "" then .error ⟨.valueError, userRequiredMsg⟩
  else if truthyOS c.password = false ∧ truthyOS c.private_key = false then
    .error ⟨.valueError, credRequiredMsg⟩
  else .ok ()

/-- The key-format loop of `_connect_ssh`: try each format in order,
stop at the first that parses; record every parse attempt. -/
def tryKeys (kp : KeyFormat → Bool) : List KeyFormat → Option KeyFormat × List Event
  | [] => (none, [])
  | f :: rest =>
    if kp f then (some f, [.keyTried f])
    else
      let r := tryKeys kp rest
      (r.1, .keyTried f :: r.2)

/-- The `except` clause of `_connect_ssh`: wrap the triggering exception
message with the `SSH connection failed: ` prefix, best-effort close the
transport handle then the SFTP handle (close errors suppressed), clear
both handle fields, and raise the new generic exception.  `config` is
not touched here. -/
def connectCleanup (e : PyErr) (st : SrvState) (evs : List Event) : OpResult :=
  let st1 : SrvState := { st with ssh_client := none }
  let evs1 := match st.ssh_client with
    | some h => evs ++ [Event.closeSsh h]
    | none => evs
  let st2 : SrvState := { st1 with sftp_client := none }
  let evs2 := match st1.sftp_client with
    | some h => evs1 ++ [Event.closeSftp h]
    | none => evs1
  (.error ⟨.exception, "SSH connection failed: " ++ pyStr e⟩, st2, evs2)

/-- Tail of `_connect_ssh` after a successful transport connect: open
the SFTP sub-channel, record the config, return the success string;
on failure fall into the cleanup clause. -/
def connectSftpStep (st : SrvState) (fresh : Nat) (final : SSHConfig) (w : World)
    (evs : List Event) : OpResult :=
  match w.sftpOpenErr with
  | some e => connectCleanup e st evs
  | none =>
    (.ok ("Successfully connected to " ++ final.username ++ "@" ++ final.host ++ ":"
          ++ toString final.port),
     { st with sftp_client := some (fresh + 1), config := some final },
     evs ++ [.sftpOpen (fresh + 1)])

/-- Body of `_connect_ssh` after the initial teardown of a prior
session: merge and validate the config, create the client, authenticate
by private key (trying the four formats in order) or by password, then
open the SFTP sub-channel.  Any raised exception falls into the cleanup
clause `connectCleanup`. -/
def connectBody (st : SrvState) (fresh : Nat) (a : ConnectArgs) (w : World)
    (evs : List Event) : OpResult :=
  let final := mergeConfig a w.envConfig
  match validateConfig final with
  | .error e => connectCleanup e st evs
  | .ok _ =>
    let st1 : SrvState := { st with ssh_client := some fresh }
    if truthyOS final.private_key then
      match tryKeys w.keyParse keyTypes with
      | (none, kevs) => connectCleanup ⟨.valueError, keyLoadFailMsg⟩ st1 (evs ++ kevs)
      | (some f, kevs) =>
        match w.connectErr with
        | some e => connectCleanup e st1 (evs ++ kevs ++ [.authKey f])
        | none =>
          connectSftpStep st1 fresh final w (evs ++ kevs ++ [.authKey f, .transportOpen fresh])
    else
      match w.connectErr with
      | some e => connectCleanup e st1 (evs ++ [.authPassword])
      | none => connectSftpStep st1 fresh final w (evs ++ [.authPassword, .transportOpen fresh])

/-- `_connect_ssh`: if a client is held, first run `_disconnect_ssh`
(whose failure aborts the connect through the cleanup clause), then run
the connect body.  `fresh` is the identifier of the transport handle a
successful connect would create; its SFTP sub-channel gets `fresh + 1`. -/
def connect_ssh (st : SrvState) (fresh : Nat) (a : ConnectArgs) (w : World) : OpResult :=
  match st.ssh_client with
  | some _ =>
    match disconnect_ssh st w with
    | (.error e, st1, evs) => connectCleanup e st1 evs
    | (.ok _, st1, evs) => connectBody st1 fresh a w evs
  | none => connectBody st fresh a w []

def notConnectedMsg : String := "Not connected to SSH. Please connect first."

def notConnectedJa : String := "SSHに接続されていません。まず接続してください。"

/-- The `cd`-prefixing of `_execute_command`: a truthy (non-empty) `cwd`
prepends `cd {cwd} && ` unescaped; otherwise the command is unchanged. -/
def actualCommand (command : String) (cwd : Option String) : String :=
  match cwd with
  | some c => if c = "" then command else "cd " ++ c ++ " && " ++ command
  | none => command

/-- Python `str.rstrip()` (trailing whitespace removed). -/
def pyRstrip (s : String) : String :=
  String.mk (s.data.reverse.dropWhile Char.isWhitespace).reverse

/-- Truthiness of Python `s.strip()`: `s` has a non-whitespace char. -/
def pyStripTruthy (s : String) : Bool :=
  s.data.any (fun c => !c.isWhitespace)

/-- One output block of the `_execute_command` formatter:
`data.rstrip() if data.strip() else ""`. -/
def formatSection (s : String) : String :=
  if pyStripTruthy s then pyRstrip s else ""

/-- The `result_parts` join of `_execute_command` (lines 286-296); note
it uses the caller's `command`, not the dispatched `actual_command`. -/
def formatCmdResult (command : String) (exitCode : Nat) (out err : String) : String :=
  String.intercalate "\n"
    ["Command: " ++ command,
     "Exit Code: " ++ toString exitCode,
     "",
     "STDOUT:",
     formatSection out,
     "",
     "STDERR:",
     formatSection err]

/-- `_execute_command`: require a held client, dispatch the (possibly
`cd`-prefixed) command, decode the captured byte streams, and format the
result; a transport-level failure is wrapped as
`Command execution failed: ...`.  A non-zero exit code takes the normal
return path. -/
def execute_command (st : SrvState) (command : String) (cwd : Option String)
    (w : World) : OpResult :=
  match st.ssh_client with
  | none => (.error ⟨.exception, notConnectedMsg⟩, st, [])
  | some _ =>
    let ac := actualCommand command cwd
    match w.execResult with
    | .error e =>
      (.error ⟨.exception, "Command execution failed: " ++ pyStr e⟩, st, [.execCmd ac])
    | .ok (ob, eb, code) =>
      (.ok (formatCmdResult command code (w.decode ob) (w.decode eb)), st, [.execCmd ac])

/-- Python `os.path.dirname` for POSIX paths: everything up to the last
slash, with trailing slashes stripped unless the head is all slashes. -/
def posixDirname (p : String) : String :=
  let cs := p.data
  let i : Nat :=
    match cs.reverse.findIdx? (fun c => c = '/') with
    | some j => cs.length - j
    | none => 0
  let head := cs.take i
  if head ≠ [] ∧ ¬ head.all (fun c => c = '/') then
    String.mk ((head.reverse.dropWhile (fun c => c = '/')).reverse)
  else String.mk head

/-- The `sftp.put` step of `_upload_file` with its wrapping of library
errors. -/
def putStep (st : SrvState) (localPath remotePath : String) (w : World)
    (evs : List Event) : OpResult :=
  match w.putErr with
  | some e =>
    (.error ⟨.exception, "File upload failed: " ++ pyStr e⟩, st, evs ++ [.sftpPut localPath remotePath])
  | none =>
    (.ok ("Successfully uploaded " ++ localPath ++ " to " ++ remotePath), st,
     evs ++ [.sftpPut localPath remotePath])

/-- `_upload_file`: require a held SFTP handle; a missing local file
raises `FileNotFoundError`, caught by the outer handler and re-raised as
`File upload failed: Local file not found: ...` with no remote effect;
otherwise, if the remote parent directory string is non-empty, attempt a
single-level `mkdir` (a `FileExistsError` outcome is swallowed, any
other error propagates wrapped), then `put` the file. -/
def upload_file (st : SrvState) (localPath remotePath : String) (w : World) : OpResult :=
  match st.sftp_client with
  | none => (.error ⟨.exception, notConnectedJa⟩, st, [])
  | some _ =>
    if w.localExists localPath then
      let rdir := posixDirname remotePath
      if rdir = "" then putStep st localPath remotePath w []
      else
        match w.mkdirErr rdir with
        | some e =>
          if e.kind = .fileExistsError then putStep st localPath remotePath w [.mkdirAttempt rdir]
          else (.error ⟨.exception, "File upload failed: " ++ pyStr e⟩, st, [.mkdirAttempt rdir])
        | none => putStep st localPath remotePath w [.mkdirAttempt rdir]
    else
      (.error ⟨.exception, "File upload failed: Local file not found: " ++ localPath⟩, st, [])

/-- `_download_file`: require a held SFTP handle; create the local
parent directory tree if absent (`os.makedirs`, recursive), then `get`
the remote file; library errors are wrapped as
`File download failed: ...`. -/
def download_file (st : SrvState) (remotePath localPath : String) (w : World) : OpResult :=
  match st.sftp_client with
  | none => (.error ⟨.exception, notConnectedJa⟩, st, [])
  | some _ =>
    let ldir := posixDirname localPath
    if ldir ≠ "" ∧ w.localExists ldir = false then
      match w.makedirsErr with
      | some e => (.error ⟨.exception, "File download failed: " ++ pyStr e⟩, st, [.makedirs ldir])
      | none => getStep st remotePath localPath w [.makedirs ldir]
    else getStep st remotePath localPath w []
where
  /-- The `sftp.get` step with its error wrapping. -/
  getStep (st : SrvState) (remotePath localPath : String) (w : World)
      (evs : List Event) : OpResult :=
    match w.getErr with
    | some e =>
      (.error ⟨.exception, "File download failed: " ++ pyStr e⟩, st,
       evs ++ [.sftpGet remotePath localPath])
    | none =>
      (.ok ("Successfully downloaded " ++ remotePath ++ " to " ++ localPath), st,
       evs ++ [.sftpGet remotePath localPath])

/-- The fixed diagnostic command list of `_get_system_info`. -/
def sysCommands : List String :=
  ["uname -a", "lsb_release -a", "df -h", "free -h", "ps aux | head -10"]

/-- One labeled section of the `_get_system_info` output; a failing
command contributes an inline error line under its header. -/
def sysSection (w : World) (cmd : String) : String :=
  match w.sysExec cmd with
  | .ok ob => "=== " ++ cmd ++ " ===\n" ++ w.decode ob ++ "\n\n"
  | .error e => "=== " ++ cmd ++ " ===\nCommand execution error: " ++ pyStr e ++ "\n\n"

/-- `_get_system_info`: require a held client, then run the five
diagnostic commands and concatenate their labeled sections. -/
def get_system_info (st : SrvState) (w : World) : OpResult :=
  match st.ssh_client with
  | none => (.error ⟨.exception, notConnectedMsg⟩, st, [])
  | some _ =>
    (.ok (String.join (sysCommands.map (sysSection w))), st, sysCommands.map Event.execCmd)

/-- Transport liveness: a transport id becomes live on `transportOpen`
and stops being counted at the first close attempt on it. -/
def stepLive (l : List Nat) : Event → List Nat
  | .transportOpen h => l ++ [h]
  | .closeSsh h => l.erase h
  | _ => l

/-- The set of live transports after a whole trace. -/
def liveT (init : List Nat) : List Event → List Nat
  | [] => init
  | e :: rest => liveT (stepLive init e) rest

/-- `liveBound init evs` holds when at every prefix point of the trace
(including before and after it) at most one transport is live. -/
def liveBound (init : List Nat) : List Event → Bool
  | [] => init.length ≤ 1
  | e :: rest => (init.length ≤ 1 : Bool) && liveBound (stepLive init e) rest

/-- The transports held live by a server state: its transport handle. -/
def initLive (st : SrvState) : List Nat := st.ssh_client.toList

/-- Whether a trace opens any transport. -/
def hasTransportOpen (evs : List Event) : Bool :=
  evs.any (fun e => match e with | .transportOpen _ => true | _ => false)

/-- The key-parse attempts recorded in a trace, in order. -/
def keyTriedList (evs : List Event) : List KeyFormat :=
  evs.filterMap (fun e => match e with | .keyTried f => some f | _ => none)

/-! ## Fixed sample data for witnesses -/

/-- An all-defaults environment configuration. -/
def cfg0 : SSHConfig := ⟨"", 22, "", none, none, none⟩

/-- A baseline world where every library call succeeds and the
environment provides nothing. -/
def w0 : World :=
  { envConfig := cfg0
    keyParse := fun _ => false
    connectErr := none
    sftpOpenErr := none
    closeSftpErr := none
    closeSshErr := none
    localExists := fun _ => false
    mkdirErr := fun _ => none
    putErr := none
    getErr := none
    makedirsErr := none
    execResult := .ok ([], [], 0)
    sysExec := fun _ => .ok []
    decode := fun _ => "" }

/-- All-absent connect arguments. -/
def argsNone : ConnectArgs := ⟨none, none, none, none, none, none⟩

/-! ## Helper lemmas -/

lemma liveT_append (init : List Nat) (xs ys : List Event) :
    liveT init (xs ++ ys) = liveT (liveT init xs) ys := by
  induction xs generalizing init with
  | nil => rfl
  | cons x t ih => simp [liveT, ih]

lemma liveBound_append (init : List Nat) (xs ys : List Event) :
    liveBound init (xs ++ ys) = (liveBound init xs && liveBound (liveT init xs) ys) := by
  induction xs generalizing init with
  | nil =>
    cases ys with
    | nil => simp [liveBound, liveT]
    | cons y t =>
      simp only [List.nil_append, liveBound, liveT]
      rw [← Bool.and_assoc, Bool.and_self]
  | cons x t ih => simp [liveBound, liveT, ih, Bool.and_assoc]

lemma tryKeys_live (kp : KeyFormat → Bool) :
    ∀ (l : List KeyFormat) (m : List Nat),
      liveT m (tryKeys kp l).2 = m ∧
      liveBound m (tryKeys kp l).2 = decide (m.length ≤ 1)
  | [], m => by simp [tryKeys, liveT, liveBound]
  | f :: rest, m => by
    have ih := tryKeys_live kp rest m
    by_cases hf : kp f
    · simp [tryKeys, hf, liveT, liveBound, stepLive]
    · simp [tryKeys, hf, liveT, liveBound, stepLive, ih.1, ih.2]

lemma connectCleanup_fst (e : PyErr) (st : SrvState) (evs : List Event) :
    (connectCleanup e st evs).1 = .error ⟨.exception, "SSH connection failed: " ++ pyStr e⟩ := rfl

lemma connectCleanup_state (e : PyErr) (st : SrvState) (evs : List Event) :
    (connectCleanup e st evs).2.1.ssh_client = none ∧
    (connectCleanup e st evs).2.1.sftp_client = none := ⟨rfl, rfl⟩

lemma connectCleanup_live (e : PyErr) (st : SrvState) (init : List Nat) (evs : List Event)
    (hb : liveBound init evs = true) (hl : (liveT init evs).length ≤ 1) :
    liveBound init (connectCleanup e st evs).2.2 = true := by
  have herase : ∀ h : Nat, ((liveT init evs).erase h).length ≤ 1 :=
    fun h => le_trans (List.length_erase_le _ _) hl
  rcases hss : st.ssh_client with _ | h <;> rcases hsf : st.sftp_client with _ | h2 <;>
    simp [connectCleanup, hss, hsf, liveBound_append, liveT_append, hb, liveBound, liveT,
      stepLive, hl, herase]

lemma connectSftpStep_live (st : SrvState) (fresh : Nat) (final : SSHConfig) (w : World)
    (init : List Nat) (evs : List Event)
    (hb : liveBound init evs = true) (hT : liveT init evs = [fresh]) :
    liveBound init (connectSftpStep st fresh final w evs).2.2 = true ∧
    (∀ s, (connectSftpStep st fresh final w evs).1 = .ok s →
      liveT init (connectSftpStep st fresh final w evs).2.2 = [fresh] ∧
      (connectSftpStep st fresh final w evs).2.1.ssh_client = st.ssh_client ∧
      (connectSftpStep st fresh final w evs).2.1.sftp_client = some (fresh + 1)) := by
  rcases ho : w.sftpOpenErr with _ | e1
  · simp only [connectSftpStep, ho]
    constructor
    · rw [liveBound_append, hb, hT]
      simp [liveBound, liveT, stepLive]
    · intro s _
      refine ⟨?_, by trivial, by trivial⟩
      rw [liveT_append, hT]
      simp [liveT, stepLive]
  · simp only [connectSftpStep, ho]
    constructor
    · exact connectCleanup_live e1 st init evs hb (by simp [hT])
    · intro s hok
      rw [connectCleanup_fst] at hok
      cases hok

lemma connectBody_live (st : SrvState) (fresh : Nat) (a : ConnectArgs) (w : World)
    (init : List Nat) (evs : List Event)
    (hb : liveBound init evs = true) (hT : liveT init evs = []) :
    liveBound init (connectBody st fresh a w evs).2.2 = true ∧
    (∀ s, (connectBody st fresh a w evs).1 = .ok s →
      liveT init (connectBody st fresh a w evs).2.2 = [fresh] ∧
      (connectBody st fresh a w evs).2.1.ssh_client = some fresh ∧
      (connectBody st fresh a w evs).2.1.sftp_client = some (fresh + 1)) := by
  have hl : (liveT init evs).length ≤ 1 := by simp [hT]
  rcases hv : validateConfig (mergeConfig a w.envConfig) with e0 | u
  · simp only [connectBody, hv]
    refine ⟨connectCleanup_live e0 st init evs hb hl, ?_⟩
    intro s hok
    rw [connectCleanup_fst] at hok
    cases hok
  · by_cases hk : truthyOS (mergeConfig a w.envConfig).private_key = true
    · rcases htk : tryKeys w.keyParse keyTypes with ⟨ko, kevs⟩
      have hbk : liveBound init (evs ++ kevs) = true := by
        rw [liveBound_append, hb, hT]
        have hkl := tryKeys_live w.keyParse keyTypes ([] : List Nat)
        rw [htk] at hkl
        simp [hkl.2]
      have hTk : liveT init (evs ++ kevs) = [] := by
        rw [liveT_append, hT]
        have hkl := tryKeys_live w.keyParse keyTypes ([] : List Nat)
        rw [htk] at hkl
        exact hkl.1
      rcases ko with _ | f
      · simp only [connectBody, hv, htk, if_pos hk]
        refine ⟨connectCleanup_live _ _ init (evs ++ kevs) hbk (by simp [hTk]), ?_⟩
        intro s hok
        rw [connectCleanup_fst] at hok
        cases hok
      · rcases hc : w.connectErr with _ | e1
        · simp only [connectBody, hv, htk, if_pos hk, hc]
          exact connectSftpStep_live _ fresh _ w init
            (evs ++ kevs ++ [Event.authKey f, Event.transportOpen fresh])
            (by rw [liveBound_append, hbk, hTk]; simp [liveBound, stepLive, liveT])
            (by rw [liveT_append, hTk]; simp [liveT, stepLive])
        · simp only [connectBody, hv, htk, if_pos hk, hc]
          refine ⟨?_, ?_⟩
          · exact connectCleanup_live e1 _ init (evs ++ kevs ++ [Event.authKey f])
              (by rw [liveBound_append, hbk, hTk]; simp [liveBound, stepLive, liveT])
              (by rw [liveT_append, hTk]; simp [liveT, stepLive])
          · intro s hok
            rw [connectCleanup_fst] at hok
            cases hok
    · rcases hc : w.connectErr with _ | e1
      · simp only [connectBody, hv, if_neg hk, hc]
        exact connectSftpStep_live _ fresh _ w init
          (evs ++ [Event.authPassword, Event.transportOpen fresh])
          (by rw [liveBound_append, hb, hT]; simp [liveBound, stepLive, liveT])
          (by rw [liveT_append, hT]; simp [liveT, stepLive])
      · simp only [connectBody, hv, if_neg hk, hc]
        refine ⟨?_, ?_⟩
        · exact connectCleanup_live e1 _ init (evs ++ [Event.authPassword])
            (by rw [liveBound_append, hb, hT]; simp [liveBound, stepLive, liveT])
            (by rw [liveT_append, hT]; simp [liveT, stepLive])
        · intro s hok
          rw [connectCleanup_fst] at hok
          cases hok

lemma tryKeys_spec (kp : KeyFormat → Bool) : ∀ l : List KeyFormat,
    (tryKeys kp l).1 = l.find? kp ∧
    (tryKeys kp l).2 =
      (l.takeWhile (fun f => !kp f) ++ (l.find? kp).toList).map Event.keyTried
  | [] => by simp [tryKeys]
  | f :: rest => by
    have ih := tryKeys_spec kp rest
    by_cases hf : kp f
    · simp [tryKeys, hf, List.find?_cons, List.takeWhile_cons]
    · simp [tryKeys, hf, List.find?_cons, List.takeWhile_cons, ih.1, ih.2]

lemma keyTriedList_append (xs ys : List Event) :
    keyTriedList (xs ++ ys) = keyTriedList xs ++ keyTriedList ys := by
  simp [keyTriedList]

lemma keyTriedList_map_keyTried (l : List KeyFormat) :
    keyTriedList (l.map Event.keyTried) = l := by
  induction l with
  | nil => simp [keyTriedList]
  | cons f t ih => simpa [keyTriedList, List.filterMap_cons] using ih

lemma connectBody_shape (st : SrvState) (fresh : Nat) (a : ConnectArgs) (w : World)
    (evs : List Event) :
    (∃ s, (connectBody st fresh a w evs).1 = .ok s) ∨
    (∃ e0,
      (connectBody st fresh a w evs).1 =
        .error ⟨.exception, "SSH connection failed: " ++ pyStr e0⟩ ∧
      (connectBody st fresh a w evs).2.1.ssh_client = none ∧
      (connectBody st fresh a w evs).2.1.sftp_client = none ∧
      (validateConfig (mergeConfig a w.envConfig) = .error e0 ∨
       e0 = ⟨.valueError, keyLoadFailMsg⟩ ∨
       w.connectErr = some e0 ∨
       w.sftpOpenErr = some e0)) := by
  rcases hv : validateConfig (mergeConfig a w.envConfig) with e0 | u
  · right
    refine ⟨e0, ?_, ?_, ?_, Or.inl rfl⟩
    · simp only [connectBody, hv]
      exact connectCleanup_fst e0 st evs
    · simp only [connectBody, hv]
      exact (connectCleanup_state e0 st evs).1
    · simp only [connectBody, hv]
      exact (connectCleanup_state e0 st evs).2
  · by_cases hk : truthyOS (mergeConfig a w.envConfig).private_key = true
    · rcases htk : tryKeys w.keyParse keyTypes with ⟨ko, kevs⟩
      rcases ko with _ | f
      · right
        refine ⟨⟨.valueError, keyLoadFailMsg⟩, ?_, ?_, ?_, Or.inr (Or.inl rfl)⟩
        · simp only [connectBody, hv, htk, if_pos hk]
          exact connectCleanup_fst ..
        · simp only [connectBody, hv, htk, if_pos hk]
          exact (connectCleanup_state ..).1
        · simp only [connectBody, hv, htk, if_pos hk]
          exact (connectCleanup_state ..).2
      · rcases hc : w.connectErr with _ | e1
        · rcases ho : w.sftpOpenErr with _ | e2
          · left
            simp only [connectBody, hv, htk, if_pos hk, hc, connectSftpStep, ho]
            exact ⟨_, rfl⟩
          · right
            refine ⟨e2, ?_, ?_, ?_, Or.inr (Or.inr (Or.inr rfl))⟩
            · simp only [connectBody, hv, htk, if_pos hk, hc, connectSftpStep, ho]
              exact connectCleanup_fst ..
            · simp only [connectBody, hv, htk, if_pos hk, hc, connectSftpStep, ho]
              exact (connectCleanup_state ..).1
            · simp only [connectBody, hv, htk, if_pos hk, hc, connectSftpStep, ho]
              exact (connectCleanup_state ..).2
        · right
          refine ⟨e1, ?_, ?_, ?_, Or.inr (Or.inr (Or.inl rfl))⟩
          · simp only [connectBody, hv, htk, if_pos hk, hc]
            exact connectCleanup_fst ..
          · simp only [connectBody, hv, htk, if_pos hk, hc]
            exact (connectCleanup_state ..).1
          · simp only [connectBody, hv, htk, if_pos hk, hc]
            exact (connectCleanup_state ..).2
    · rcases hc : w.connectErr with _ | e1
      · rcases ho : w.sftpOpenErr with _ | e2
        · left
          simp only [connectBody, hv, if_neg hk, hc, connectSftpStep, ho]
          exact ⟨_, rfl⟩
        · right
          refine ⟨e2, ?_, ?_, ?_, Or.inr (Or.inr (Or.inr rfl))⟩
          · simp only [connectBody, hv, if_neg hk, hc, connectSftpStep, ho]
            exact connectCleanup_fst ..
          · simp only [connectBody, hv, if_neg hk, hc, connectSftpStep, ho]
            exact (connectCleanup_state ..).1
          · simp only [connectBody, hv, if_neg hk, hc, connectSftpStep, ho]
            exact (connectCleanup_state ..).2
      · right
        refine ⟨e1, ?_, ?_, ?_, Or.inr (Or.inr (Or.inl rfl))⟩
        · simp only [connectBody, hv, if_neg hk, hc]
          exact connectCleanup_fst ..
        · simp only [connectBody, hv, if_neg hk, hc]
          exact (connectCleanup_state ..).1
        · simp only [connectBody, hv, if_neg hk, hc]
          exact (connectCleanup_state ..).2

lemma disconnect_live (st : SrvState) (w : World) :
    liveBound (initLive st) (disconnect_ssh st w).2.2 = true ∧
    (liveT (initLive st) (disconnect_ssh st w).2.2).length ≤ 1 ∧
    (∀ s, (disconnect_ssh st w).1 = .ok s →
      s = "Successfully disconnected from SSH" ∧
      liveT (initLive st) (disconnect_ssh st w).2.2 = []) := by
  obtain ⟨ssh, sftp, cfg⟩ := st
  rcases ssh with _ | h <;> rcases sftp with _ | h2 <;>
    rcases h1 : w.closeSftpErr with _ | e1 <;> rcases h2e : w.closeSshErr with _ | e2 <;>
      simp [disconnect_ssh, disconnectSshPart, h1, h2e, initLive, liveBound, liveT, stepLive]

/-! ## Claims -/

/-- C5: the merged connection configuration takes, for each field, the
explicit value when present and non-empty (non-zero for the port), and
the default value otherwise; and validation fails (with the
`ValueError` the spec calls `ConfigError`) exactly when, after merging,
host or username is empty or neither password nor private key material
is present. -/
theorem merged_config_overrides_and_validation (a : ConnectArgs) (env : SSHConfig) :
    ((mergeConfig a env).host = match a.host with
      | some s => if s = "" then env.host else s
      | none => env.host) ∧
    ((mergeConfig a env).port = match a.port with
      | some n => if n = 0 then env.port else n
      | none => env.port) ∧
    ((mergeConfig a env).username = match a.username with
      | some s => if s = "" then env.username else s
      | none => env.username) ∧
    ((mergeConfig a env).password = match a.password with
      | some s => if s = "" then env.password else some s
      | none => env.password) ∧
    ((mergeConfig a env).private_key = match a.private_key with
      | some s => if s = "" then env.private_key else some s
      | none => env.private_key) ∧
    ((mergeConfig a env).private_key_passphrase = match a.private_key_passphrase with
      | some s => if s = "" then env.private_key_passphrase else some s
      | none => env.private_key_passphrase) ∧
    ((∃ e, validateConfig (mergeConfig a env) = .error e) ↔
      ((mergeConfig a env).host = "" ∨ (mergeConfig a env).username = "" ∨
        (truthyOS (mergeConfig a env).password = false ∧
         truthyOS (mergeConfig a env).private_key = false))) ∧
    (∀ e, validateConfig (mergeConfig a env) = .error e → e.kind = .valueError) := by
  refine ⟨?_, ?_, ?_, ?_, ?_, ?_, ?_, ?_⟩
  · rcases ha : a.host with _ | s <;> simp [mergeConfig, orS, ha]
  · rcases ha : a.port with _ | n <;> simp [mergeConfig, orN, ha]
  · rcases ha : a.username with _ | s <;> simp [mergeConfig, orS, ha]
  · rcases ha : a.password with _ | s <;> simp [mergeConfig, orOS, ha]
  · rcases ha : a.private_key with _ | s <;> simp [mergeConfig, orOS, ha]
  · rcases ha : a.private_key_passphrase with _ | s <;> simp [mergeConfig, orOS, ha]
  · unfold validateConfig
    split_ifs with h1 h2 h3 <;> simp_all
  · intro e
    unfold validateConfig
    split_ifs <;> intro he <;>
      first
        | (injection he with h2; subst h2; rfl)
        | simp at he

/-- C5 witness: a non-empty explicit host overrides the default, and the
validation of a fully-defaulted empty merge fails. -/
theorem merged_config_witness :
    (mergeConfig ⟨some "x", none, none, none, none, none⟩ cfg0).host = "x" ∧
    (∃ e, validateConfig (mergeConfig argsNone cfg0) = .error e) :=
  ⟨((merged_config_overrides_and_validation
      ⟨some "x", none, none, none, none, none⟩ cfg0).1).trans rfl,
   ((merged_config_overrides_and_validation argsNone cfg0).2.2.2.2.2.2.1).mpr
     (by simp [mergeConfig, orS, cfg0, argsNone])⟩

/-- C6: `execute`, `upload`, `download` and `collect_system_info`, when
invoked in the `Disconnected` state, all fail with the not-connected
error, leave the state `Disconnected`, and perform no effect (empty
trace). -/
theorem ops_from_disconnected_fail_not_connected (cmd : String) (cwd : Option String)
    (l r rp lp : String) (w : World) :
    execute_command disconnectedSt cmd cwd w =
      (.error ⟨.exception, notConnectedMsg⟩, disconnectedSt, []) ∧
    upload_file disconnectedSt l r w =
      (.error ⟨.exception, notConnectedJa⟩, disconnectedSt, []) ∧
    download_file disconnectedSt rp lp w =
      (.error ⟨.exception, notConnectedJa⟩, disconnectedSt, []) ∧
    get_system_info disconnectedSt w =
      (.error ⟨.exception, notConnectedMsg⟩, disconnectedSt, []) :=
  ⟨rfl, rfl, rfl, rfl⟩

/-- C7: over a connected session, a successful remote command produces a
normal result carrying the exit code and the decoded output streams,
whatever the exit code is (non-zero does not raise); an error is raised
only when the underlying execution itself fails at the transport level,
and then it is the `Command execution failed: ...` wrap of that
failure. -/
theorem execute_nonzero_exit_is_normal_result (st : SrvState) (cmd : String)
    (cwd : Option String) (w : World) (h : st.ssh_client ≠ none) :
    (∀ ob eb code, w.execResult = .ok (ob, eb, code) →
        (execute_command st cmd cwd w).1 =
          .ok (formatCmdResult cmd code (w.decode ob) (w.decode eb))) ∧
    (∀ e, w.execResult = .error e →
        (execute_command st cmd cwd w).1 =
          .error ⟨.exception, "Command execution failed: " ++ pyStr e⟩) ∧
    (∀ e2, (execute_command st cmd cwd w).1 = .error e2 →
        ∃ e, w.execResult = .error e ∧
          e2 = ⟨.exception, "Command execution failed: " ++ pyStr e⟩) := by
  rcases hs : st.ssh_client with _ | hd
  · exact absurd hs h
  · refine ⟨?_, ?_, ?_⟩
    · intro ob eb code hex
      simp [execute_command, hs, hex]
    · intro e hex
      simp [execute_command, hs, hex]
    · intro e2 he2
      rcases hr : w.execResult with e | ⟨ob, eb, code⟩
      · simp [execute_command, hs, hr] at he2
        simp_all
      · simp [execute_command, hs, hr] at he2

/-- C7 witness: a command exiting 1 returns a normal formatted result. -/
theorem execute_nonzero_exit_witness :
    (execute_command ⟨some 0, some 1, none⟩ "false" none
        { w0 with execResult := .ok ([], [], 1) }).1 =
      .ok (formatCmdResult "false" 1 "" "") :=
  (execute_nonzero_exit_is_normal_result ⟨some 0, some 1, none⟩ "false" none
    { w0 with execResult := .ok ([], [], 1) } (by simp)).1 [] [] 1 rfl

/-- C9: the command actually dispatched to the remote shell is the
unescaped concatenation `cd cwd && command` whenever a non-empty `cwd`
is supplied, and the unmodified command when `cwd` is absent. -/
theorem execute_dispatches_cd_prefixed_command (st : SrvState) (cmd : String)
    (cwd : Option String) (w : World) (h : st.ssh_client ≠ none) :
    (∀ c, cwd = some c → c ≠ "" →
        (execute_command st cmd cwd w).2.2 = [.execCmd ("cd " ++ c ++ " && " ++ cmd)]) ∧
    (cwd = none → (execute_command st cmd cwd w).2.2 = [.execCmd cmd]) := by
  rcases hs : st.ssh_client with _ | hd
  · exact absurd hs h
  · constructor
    · intro c hc hne
      rcases hr : w.execResult with e | ⟨ob, eb, code⟩ <;>
        simp [execute_command, hs, hr, hc, actualCommand, hne]
    · intro hc
      rcases hr : w.execResult with e | ⟨ob, eb, code⟩ <;>
        simp [execute_command, hs, hr, hc, actualCommand]

/-- C9 witness: with `cwd = "/tmp"`, the dispatched command is
`cd /tmp && ls`; without `cwd` it is `ls`. -/
theorem execute_dispatches_cd_witness :
    (execute_command ⟨some 0, some 1, none⟩ "ls" (some "/tmp") w0).2.2 =
      [.execCmd ("cd " ++ "/tmp" ++ " && " ++ "ls")] :=
  (execute_dispatches_cd_prefixed_command ⟨some 0, some 1, none⟩ "ls" (some "/tmp") w0
    (by simp)).1 "/tmp" rfl (by simp)

/-- Unfolding of the result formatter into its concatenated pieces. -/
theorem formatCmdResult_parts (c : String) (k : Nat) (o e : String) :
    formatCmdResult c k o e =
      "Command: " ++ (c ++ ("\n" ++ ("Exit Code: " ++ (toString k ++
        ("\n\nSTDOUT:\n" ++ (formatSection o ++
          ("\n\nSTDERR:\n" ++ formatSection e))))))) := by
  simp [formatCmdResult, String.intercalate, String.intercalate.go, String.append_assoc]

/-- C10: for a successful execute with a supplied `cwd`, the returned
text's `Command:` line echoes the caller's original command, and the
whole returned text is identical to what the same execution without a
`cwd` would return — the `cd` prefix never enters the formatted
result. -/
theorem execute_result_echoes_original_command (st : SrvState) (cmd c : String)
    (w : World) (ob eb : List Nat) (code : Nat) (h : st.ssh_client ≠ none)
    (hex : w.execResult = .ok (ob, eb, code)) :
    (execute_command st cmd (some c) w).1 =
      .ok ("Command: " ++ (cmd ++ ("\n" ++ ("Exit Code: " ++ (toString code ++
        ("\n\nSTDOUT:\n" ++ (formatSection (w.decode ob) ++
          ("\n\nSTDERR:\n" ++ formatSection (w.decode eb))))))))) ∧
    (execute_command st cmd (some c) w).1 = (execute_command st cmd none w).1 := by
  rcases hs : st.ssh_client with _ | hd
  · exact absurd hs h
  · constructor
    · simp [execute_command, hs, hex, formatCmdResult_parts]
    · simp [execute_command, hs, hex]

/-- C3 counterexample: with a broken SFTP handle whose close raises,
`disconnect` does not suppress the closing error — it raises the
wrapped error `Disconnect failed: ...` and leaves both handles and the
config still recorded, so the final state is not `Disconnected`. -/
theorem disconnect_close_error_not_suppressed :
    disconnect_ssh ⟨some 0, some 1, some cfg0⟩
        { w0 with closeSftpErr := some ⟨.libError, "Socket is closed"⟩ } =
      (.error ⟨.exception, "Disconnect failed: Socket is closed"⟩,
       ⟨some 0, some 1, some cfg0⟩, [.closeSftp 1]) ∧
    (⟨some 0, some 1, some cfg0⟩ : SrvState) ≠ disconnectedSt :=
  ⟨rfl, by simp [disconnectedSt]⟩

/-- C3 amended: from `Disconnected`, `disconnect` succeeds trivially and
stays `Disconnected`; when both closes succeed it closes the SFTP
sub-channel then the transport, clears all state and ends
`Disconnected`; but an error raised while closing is NOT suppressed: it
is re-raised wrapped as `Disconnect failed: ...`, and the fields not yet
cleared at that point (including the failing handle) keep their
values. -/
theorem disconnect_idempotent_and_teardown (st : SrvState) (w : World) :
    (disconnect_ssh disconnectedSt w =
      (.ok "Successfully disconnected from SSH", disconnectedSt, [])) ∧
    (w.closeSftpErr = none → w.closeSshErr = none →
      disconnect_ssh st w =
        (.ok "Successfully disconnected from SSH", disconnectedSt,
         st.sftp_client.toList.map Event.closeSftp ++ st.ssh_client.toList.map Event.closeSsh)) ∧
    (∀ h e, st.sftp_client = some h → w.closeSftpErr = some e →
      disconnect_ssh st w =
        (.error ⟨.exception, "Disconnect failed: " ++ pyStr e⟩, st, [.closeSftp h])) ∧
    (∀ h e, w.closeSftpErr = none → st.ssh_client = some h → w.closeSshErr = some e →
      disconnect_ssh st w =
        (.error ⟨.exception, "Disconnect failed: " ++ pyStr e⟩,
         { st with sftp_client := none },
         st.sftp_client.toList.map Event.closeSftp ++ [.closeSsh h])) := by
  obtain ⟨ssh, sftp, cfg⟩ := st
  refine ⟨rfl, ?_, ?_, ?_⟩
  · intro h1 h2
    rcases sftp with _ | hs <;> rcases ssh with _ | hh <;>
      simp [disconnect_ssh, disconnectSshPart, h1, h2, disconnectedSt]
  · intro h e hsf he
    subst hsf
    simp [disconnect_ssh, he]
  · intro h e h1 hss he
    subst hss
    rcases sftp with _ | hs <;>
      simp [disconnect_ssh, disconnectSshPart, h1, he]

/-- C3 witness: a full teardown from a connected state closes the SFTP
sub-channel then the transport and ends `Disconnected`. -/
theorem disconnect_teardown_witness :
    disconnect_ssh ⟨some 0, some 1, some cfg0⟩ w0 =
      (.ok "Successfully disconnected from SSH", disconnectedSt,
       [.closeSftp 1, .closeSsh 0]) :=
  ((disconnect_idempotent_and_teardown ⟨some 0, some 1, some cfg0⟩ w0).2.1 rfl rfl).trans rfl

/-- C1 counterexample: at a concrete input where the connect attempt
fails at credential validation, the error returned by `connect` is a new
generic exception whose message is the triggering error's message with
the prefix `SSH connection failed: ` — not the triggering `ValueError`
itself, so the triggering error is not propagated unchanged. -/
theorem connect_error_is_wrapped_not_unchanged :
    validateConfig (mergeConfig argsNone w0.envConfig) =
      .error ⟨.valueError, hostRequiredMsg⟩ ∧
    (connect_ssh disconnectedSt 0 argsNone w0).1 =
      .error ⟨.exception, "SSH connection failed: " ++ hostRequiredMsg⟩ ∧
    (⟨ErrKind.exception, "SSH connection failed: " ++ hostRequiredMsg⟩ : PyErr) ≠
      ⟨.valueError, hostRequiredMsg⟩ :=
  ⟨rfl, rfl, by simp⟩

/-- C1 amended: on any failure at any step of `connect` (the teardown of
a prior session, credential validation, key parsing, authentication or
transport open, or opening the SFTP sub-channel), both handle fields are
cleared (back to no-handles `Disconnected`), and the raised error is the
triggering error's message wrapped in a new generic exception prefixed
with `SSH connection failed: ` (not the triggering error itself). -/
theorem connect_failure_rolls_back (st : SrvState) (fresh : Nat) (a : ConnectArgs)
    (w : World) (e : PyErr) (he : (connect_ssh st fresh a w).1 = .error e) :
    (connect_ssh st fresh a w).2.1.ssh_client = none ∧
    (connect_ssh st fresh a w).2.1.sftp_client = none ∧
    ∃ e0, e = ⟨.exception, "SSH connection failed: " ++ pyStr e0⟩ ∧
      ((disconnect_ssh st w).1 = .error e0 ∨
       validateConfig (mergeConfig a w.envConfig) = .error e0 ∨
       e0 = ⟨.valueError, keyLoadFailMsg⟩ ∨
       w.connectErr = some e0 ∨
       w.sftpOpenErr = some e0) := by
  rcases hs : st.ssh_client with _ | h
  · rw [show connect_ssh st fresh a w = connectBody st fresh a w [] from by
      simp only [connect_ssh, hs]] at he ⊢
    rcases connectBody_shape st fresh a w [] with ⟨s, hok⟩ | ⟨e0, h1, h2, h3, hcause⟩
    · rw [hok] at he
      simp at he
    · rw [h1] at he
      injection he with he2
      exact ⟨h2, h3, e0, he2.symm, Or.inr hcause⟩
  · rcases hd : disconnect_ssh st w with ⟨res, st1, devs⟩
    rcases res with e0 | s0
    · rw [show connect_ssh st fresh a w = connectCleanup e0 st1 devs from by
        simp only [connect_ssh, hs, hd]] at he ⊢
      rw [connectCleanup_fst] at he
      injection he with he2
      exact ⟨(connectCleanup_state ..).1, (connectCleanup_state ..).2, e0, he2.symm,
        Or.inl rfl⟩
    · rw [show connect_ssh st fresh a w = connectBody st1 fresh a w devs from by
        simp only [connect_ssh, hs, hd]] at he ⊢
      rcases connectBody_shape st1 fresh a w devs with ⟨s, hok⟩ | ⟨e0, h1, h2, h3, hcause⟩
      · rw [hok] at he
        simp at he
      · rw [h1] at he
        injection he with he2
        exact ⟨h2, h3, e0, he2.symm, Or.inr hcause⟩

/-- C1 witness: after the concrete failed connect of the counterexample
input, both handle fields are cleared. -/
theorem connect_rollback_witness :
    (connect_ssh disconnectedSt 0 argsNone w0).2.1.ssh_client = none ∧
    (connect_ssh disconnectedSt 0 argsNone w0).2.1.sftp_client = none :=
  ⟨(connect_failure_rolls_back disconnectedSt 0 argsNone w0
      ⟨.exception, "SSH connection failed: " ++ hostRequiredMsg⟩ rfl).1,
   (connect_failure_rolls_back disconnectedSt 0 argsNone w0
      ⟨.exception, "SSH connection failed: " ++ hostRequiredMsg⟩ rfl).2.1⟩

/-- C2: connecting keeps at most one transport live at every
intermediate point of its effect trace; a successful connect leaves
exactly the new transport live and both new handles recorded; a
successful connect over an existing client implies the full disconnect
of the prior session succeeded first; and every other operation also
keeps the at-most-one-live-transport bound. -/
theorem connect_preserves_at_most_one_session (st : SrvState) (fresh : Nat)
    (a : ConnectArgs) (w : World) :
    liveBound (initLive st) (connect_ssh st fresh a w).2.2 = true ∧
    (∀ s, (connect_ssh st fresh a w).1 = .ok s →
      liveT (initLive st) (connect_ssh st fresh a w).2.2 = [fresh] ∧
      (connect_ssh st fresh a w).2.1.ssh_client = some fresh ∧
      (connect_ssh st fresh a w).2.1.sftp_client = some (fresh + 1)) ∧
    (∀ h2 s, st.ssh_client = some h2 → (connect_ssh st fresh a w).1 = .ok s →
      (disconnect_ssh st w).1 = .ok "Successfully disconnected from SSH") ∧
    (∀ st2 w2 cmd cwd, liveBound (initLive st2) (execute_command st2 cmd cwd w2).2.2 = true) ∧
    (∀ st2 w2 l r, liveBound (initLive st2) (upload_file st2 l r w2).2.2 = true) ∧
    (∀ st2 w2 rp lp, liveBound (initLive st2) (download_file st2 rp lp w2).2.2 = true) ∧
    (∀ st2 w2, liveBound (initLive st2) (get_system_info st2 w2).2.2 = true) ∧
    (∀ st2 w2, liveBound (initLive st2) (disconnect_ssh st2 w2).2.2 = true) := by
  have hinit : ∀ st2 : SrvState, (initLive st2).length ≤ 1 := by
    intro st2
    rcases h : st2.ssh_client <;> simp [initLive, h]
  have hconn :
      liveBound (initLive st) (connect_ssh st fresh a w).2.2 = true ∧
      (∀ s, (connect_ssh st fresh a w).1 = .ok s →
        liveT (initLive st) (connect_ssh st fresh a w).2.2 = [fresh] ∧
        (connect_ssh st fresh a w).2.1.ssh_client = some fresh ∧
        (connect_ssh st fresh a w).2.1.sftp_client = some (fresh + 1)) ∧
      (∀ h2 s, st.ssh_client = some h2 → (connect_ssh st fresh a w).1 = .ok s →
        (disconnect_ssh st w).1 = .ok "Successfully disconnected from SSH") := by
    rcases hs : st.ssh_client with _ | h
    · have hi : initLive st = [] := by simp [initLive, hs]
      have hbody := connectBody_live st fresh a w (initLive st) []
        (by simp [hi, liveBound]) (by simp [liveT, hi])
      simp only [connect_ssh, hs]
      refine ⟨hbody.1, hbody.2, ?_⟩
      intro h2 s hcontr
      exact absurd hcontr (by simp)
    · rcases hd : disconnect_ssh st w with ⟨res, st1, devs⟩
      have hdl := disconnect_live st w
      rw [hd] at hdl
      rcases res with e0 | s0
      · simp only [connect_ssh, hs, hd]
        refine ⟨connectCleanup_live e0 st1 (initLive st) devs hdl.1 hdl.2.1, ?_, ?_⟩
        · intro s hok
          rw [connectCleanup_fst] at hok
          cases hok
        · intro h2 s hh hok
          rw [connectCleanup_fst] at hok
          cases hok
      · have hok0 := hdl.2.2 s0 rfl
        have hbody := connectBody_live st1 fresh a w (initLive st) devs hdl.1 hok0.2
        simp only [connect_ssh, hs, hd]
        refine ⟨hbody.1, hbody.2, ?_⟩
        intro h2 s _ _
        rw [hok0.1]
  refine ⟨hconn.1, hconn.2.1, hconn.2.2, ?_, ?_, ?_, ?_, fun st2 w2 => (disconnect_live st2 w2).1⟩
  · intro st2 w2 cmd cwd
    rcases hs2 : st2.ssh_client with _ | h2 <;>
      rcases hr : w2.execResult with e | ⟨ob, eb, code⟩ <;>
        simp [execute_command, hs2, hr, liveBound, stepLive, hinit st2]
  · intro st2 w2 l r
    rcases hs2 : st2.sftp_client with _ | h2
    · simp [upload_file, hs2, liveBound, hinit st2]
    · by_cases hex : w2.localExists l
      · by_cases hdir : posixDirname r = ""
        · rcases hp : w2.putErr with _ | e <;>
            simp [upload_file, putStep, hs2, hex, hdir, hp, liveBound, stepLive, hinit st2]
        · rcases hm : w2.mkdirErr (posixDirname r) with _ | e
          · rcases hp : w2.putErr with _ | e2 <;>
              simp [upload_file, putStep, hs2, hex, hdir, hm, hp, liveBound, stepLive, hinit st2]
          · by_cases hke : e.kind = ErrKind.fileExistsError <;>
              rcases hp : w2.putErr with _ | e2 <;>
                simp [upload_file, putStep, hs2, hex, hdir, hm, hke, hp, liveBound, stepLive,
                  hinit st2]
      · simp [upload_file, hs2, hex, liveBound, hinit st2]
  · intro st2 w2 rp lp
    rcases hs2 : st2.sftp_client with _ | h2
    · simp [download_file, hs2, liveBound, hinit st2]
    · by_cases hdir : posixDirname lp = "" ∧ w2.localExists (posixDirname lp) = false
      all_goals by_cases hdir2 : posixDirname lp ≠ "" ∧ w2.localExists (posixDirname lp) = false
      all_goals rcases hmk : w2.makedirsErr with _ | e
      all_goals rcases hg : w2.getErr with _ | e2
      all_goals
        simp [download_file, download_file.getStep, hs2, hdir2, hmk, hg, liveBound, stepLive,
          hinit st2]
  · intro st2 w2
    rcases hs2 : st2.ssh_client with _ | h2 <;>
      simp [get_system_info, hs2, sysCommands, liveBound, stepLive, hinit st2]

/-- C2 witness: connecting (by password) over a live session 3 with
sub-channel 4 ends with exactly the new transport 5 live. -/
theorem connect_one_live_witness :
    liveT (initLive ⟨some 3, some 4, some cfg0⟩)
        (connect_ssh ⟨some 3, some 4, some cfg0⟩ 5 argsNone
          { w0 with envConfig := ⟨"h", 22, "u", some "pw", none, none⟩ }).2.2 = [5] :=
  ((connect_preserves_at_most_one_session ⟨some 3, some 4, some cfg0⟩ 5 argsNone
      { w0 with envConfig := ⟨"h", 22, "u", some "pw", none, none⟩ }).2.1
    "Successfully connected to u@h:22" rfl).1

/-- C4: when the merged configuration carries private key material (and
validation passes), a connect from `Disconnected` tries to parse the key
under each format in the fixed order RSA, Ed25519, ECDSA, DSS, stopping
at the first that parses; it authenticates with that first format only,
never uses the password branch, and when no format parses it fails with
the wrapped key-load error regardless of any supplied password. -/
theorem key_formats_tried_in_order (st : SrvState) (fresh : Nat) (a : ConnectArgs)
    (w : World) (hssh : st.ssh_client = none) (hsftp : st.sftp_client = none)
    (hv : validateConfig (mergeConfig a w.envConfig) = .ok ())
    (hk : truthyOS (mergeConfig a w.envConfig).private_key = true) :
    keyTriedList (connect_ssh st fresh a w).2.2 =
      keyTypes.takeWhile (fun f => !w.keyParse f) ++ (keyTypes.find? w.keyParse).toList ∧
    Event.authPassword ∉ (connect_ssh st fresh a w).2.2 ∧
    (∀ f, keyTypes.find? w.keyParse = some f →
      Event.authKey f ∈ (connect_ssh st fresh a w).2.2 ∧
      ∀ g, Event.authKey g ∈ (connect_ssh st fresh a w).2.2 → g = f) ∧
    (keyTypes.find? w.keyParse = none →
      (connect_ssh st fresh a w).1 =
        .error ⟨.exception, "SSH connection failed: " ++ keyLoadFailMsg⟩) := by
  have hred : connect_ssh st fresh a w = connectBody st fresh a w [] := by
    simp only [connect_ssh, hssh]
  rcases htk : tryKeys w.keyParse keyTypes with ⟨ko, kevs⟩
  have hspec := tryKeys_spec w.keyParse keyTypes
  rw [htk] at hspec
  have hko : ko = keyTypes.find? w.keyParse := hspec.1
  have hkevs : kevs =
      (keyTypes.takeWhile (fun f => !w.keyParse f)
        ++ (keyTypes.find? w.keyParse).toList).map Event.keyTried := hspec.2
  rcases ko with _ | f
  · have hfind : keyTypes.find? w.keyParse = none := hko.symm
    have hbody : connectBody st fresh a w [] =
        connectCleanup ⟨.valueError, keyLoadFailMsg⟩
          { st with ssh_client := some fresh } ([] ++ kevs) := by
      simp only [connectBody, hv, htk, if_pos hk]
    have htrace : (connect_ssh st fresh a w).2.2 = kevs ++ [Event.closeSsh fresh] := by
      rw [hred, hbody]
      simp [connectCleanup, hsftp]
    have hres : (connect_ssh st fresh a w).1 =
        .error ⟨.exception, "SSH connection failed: " ++ keyLoadFailMsg⟩ := by
      rw [hred, hbody]
      exact connectCleanup_fst ..
    refine ⟨?_, ?_, ?_, fun _ => hres⟩
    · rw [htrace, keyTriedList_append, hkevs, keyTriedList_map_keyTried, hfind]
      simp [keyTriedList]
    · rw [htrace, hkevs]
      simp [List.mem_append, List.mem_map]
    · intro f hf
      rw [hfind] at hf
      cases hf
  · have hfind : keyTypes.find? w.keyParse = some f := hko.symm
    have hmain : (connect_ssh st fresh a w).2.2 = kevs ++ [Event.authKey f, Event.closeSsh fresh]
        ∨ (connect_ssh st fresh a w).2.2 =
            kevs ++ [Event.authKey f, Event.transportOpen fresh, Event.closeSsh fresh]
        ∨ (connect_ssh st fresh a w).2.2 =
            kevs ++ [Event.authKey f, Event.transportOpen fresh, Event.sftpOpen (fresh + 1)] := by
      rcases hc : w.connectErr with _ | e1
      · rcases ho : w.sftpOpenErr with _ | e2
        · right; right
          rw [hred]
          simp only [connectBody, hv, htk, if_pos hk, hc, connectSftpStep, ho]
          simp
        · right; left
          rw [hred]
          simp only [connectBody, hv, htk, if_pos hk, hc, connectSftpStep, ho]
          simp [connectCleanup, hsftp]
      · left
        rw [hred]
        simp only [connectBody, hv, htk, if_pos hk, hc]
        simp [connectCleanup, hsftp]
    refine ⟨?_, ?_, ?_, ?_⟩
    · rcases hmain with ht | ht | ht <;>
        rw [ht, keyTriedList_append, hkevs, keyTriedList_map_keyTried, hfind] <;>
          simp [keyTriedList]
    · rcases hmain with ht | ht | ht <;>
        rw [ht, hkevs] <;> simp [List.mem_append, List.mem_map]
    · intro f2 hf2
      rw [hfind] at hf2
      injection hf2 with hf2
      subst hf2
      constructor
      · rcases hmain with ht | ht | ht <;> rw [ht] <;> simp
      · intro g hg
        rcases hmain with ht | ht | ht <;>
          (rw [ht, hkevs] at hg; simp [List.mem_append, List.mem_map] at hg; exact hg)
    · intro hcontr
      rw [hfind] at hcontr
      cases hcontr

/-- C4 witness: with key material parsing only as Ed25519, exactly RSA
then Ed25519 are tried. -/
theorem key_formats_witness :
    keyTriedList (connect_ssh disconnectedSt 0 argsNone
        { w0 with envConfig := ⟨"h", 22, "u", none, some "KEY", none⟩,
                  keyParse := fun f => f == KeyFormat.Ed25519 }).2.2 =
      [KeyFormat.RSA, KeyFormat.Ed25519] :=
  ((key_formats_tried_in_order disconnectedSt 0 argsNone
      { w0 with envConfig := ⟨"h", 22, "u", none, some "KEY", none⟩,
                keyParse := fun f => f == KeyFormat.Ed25519 }
      rfl rfl rfl rfl).1).trans (by decide)

/-- C8: over a connected session, uploading a nonexistent local file
fails with the local-file-not-found error (surfaced wrapped as
`File upload failed: Local file not found: ...`) without attempting any
remote effect; when the local file exists and the remote parent
directory string is non-empty, a single-level `mkdir` of that parent is
the first effect, before the transfer: an already-exists outcome is
tolerated silently (the transfer proceeds), any other mkdir failure is
propagated and the transfer is not attempted; with no parent directory
component the transfer happens directly. -/
theorem upload_local_check_and_parent_mkdir (st : SrvState) (l r : String) (w : World)
    (h : st.sftp_client ≠ none) :
    (w.localExists l = false →
      upload_file st l r w =
        (.error ⟨.exception, "File upload failed: Local file not found: " ++ l⟩, st, [])) ∧
    (w.localExists l = true → posixDirname r ≠ "" →
      (upload_file st l r w).2.2.head? = some (.mkdirAttempt (posixDirname r)) ∧
      (∀ e, w.mkdirErr (posixDirname r) = some e → e.kind ≠ .fileExistsError →
        upload_file st l r w =
          (.error ⟨.exception, "File upload failed: " ++ pyStr e⟩, st,
           [.mkdirAttempt (posixDirname r)])) ∧
      (∀ e, w.mkdirErr (posixDirname r) = some e → e.kind = .fileExistsError →
        (upload_file st l r w).2.2 = [.mkdirAttempt (posixDirname r), .sftpPut l r]) ∧
      (w.mkdirErr (posixDirname r) = none →
        (upload_file st l r w).2.2 = [.mkdirAttempt (posixDirname r), .sftpPut l r])) ∧
    (w.localExists l = true → posixDirname r = "" →
      (upload_file st l r w).2.2 = [.sftpPut l r]) := by
  rcases hs : st.sftp_client with _ | hd
  · exact absurd hs h
  · refine ⟨?_, ?_, ?_⟩
    · intro hex
      simp [upload_file, hs, hex]
    · intro hex hdir
      refine ⟨?_, ?_, ?_, ?_⟩
      · rcases hm : w.mkdirErr (posixDirname r) with _ | e
        · rcases hp : w.putErr with _ | e2 <;>
            simp [upload_file, putStep, hs, hex, hdir, hm, hp]
        · by_cases hke : e.kind = ErrKind.fileExistsError <;>
            rcases hp : w.putErr with _ | e2 <;>
              simp [upload_file, putStep, hs, hex, hdir, hm, hke, hp]
      · intro e hm hke
        simp [upload_file, hs, hex, hdir, hm, hke]
      · intro e hm hke
        rcases hp : w.putErr with _ | e2 <;>
          simp [upload_file, putStep, hs, hex, hdir, hm, hke, hp]
      · intro hm
        rcases hp : w.putErr with _ | e2 <;>
          simp [upload_file, putStep, hs, hex, hdir, hm, hp]
    · intro hex hdir
      rcases hp : w.putErr with _ | e2 <;>
        simp [upload_file, putStep, hs, hex, hdir, hp]

/-- C8 witness: uploading a missing local file fails with the
file-not-found error and performs no remote effect. -/
theorem upload_missing_local_witness :
    upload_file ⟨some 0, some 1, none⟩ "/no/such/file" "/tmp/x" w0 =
      (.error ⟨.exception, "File upload failed: Local file not found: " ++ "/no/such/file"⟩,
       ⟨some 0, some 1, none⟩, []) :=
  (upload_local_check_and_parent_mkdir ⟨some 0, some 1, none⟩ "/no/such/file" "/tmp/x" w0
    (by simp)).1 rfl

/-- C10 witness: concrete echo of the original command with a `cwd`. -/
theorem execute_result_echoes_witness :
    (execute_command ⟨some 0, some 1, none⟩ "ls" (some "/tmp") w0).1 =
      (execute_command ⟨some 0, some 1, none⟩ "ls" none w0).1 :=
  (execute_result_echoes_original_command ⟨some 0, some 1, none⟩ "ls" "/tmp" w0
    [] [] 0 (by simp) rfl).2

end SSHMCP
